import Mathlib

/-!
# KnowledgeSavvy — verification of the orchestration core

Shallow embedding of the RAG orchestration core of the KnowledgeSavvy
repository (`src/ai_agent/`): the four graph nodes (`retrieve`,
`grade_documents`, `generate`, `web_search`), the two routing functions
(`decide_to_generate`, `grade_generation_grounded_in_documents_and_question`),
and the LangGraph workflow built in `src/ai_agent/graph.py`.

Modelling conventions:
* Python dict values stored in document metadata and grader dumps are
  modelled by the inductive `Val` (bool / string / rational number); Python
  floats are modelled as rationals, since the code only stores and passes
  scores around and never performs float arithmetic on them.
* Python dicts keyed by strings are association lists; `dictSet` follows
  Python assignment (overwrite in place, else append at the end) and
  `dictGetD` follows `dict.get(key, default)`.
* LLM / search backends are oracles passed as function parameters: the
  retrieval grader chain (`retrieval_grader.invoke`) returns
  `Except Unit GradeDocuments` — pydantic validation inside
  `with_structured_output(GradeDocuments)` raises on malformed model output,
  which the embedding renders as `Except.error`; a successful call always
  yields a fully populated `GradeDocuments` value, whose `model_dump()` is
  `scoreDict`.
* The LangGraph driver is embedded as a step function on run states: a
  superstep executes the current node's update and then follows the node's
  outgoing edges exactly as registered in `graph.py`; an edge whose target
  is `END` schedules no further task, so the run halts when the only
  produced target is `END`.
-/

namespace KS

/-- A Python value as stored in document metadata or a grader `model_dump()`:
a bool, a string, or a number (floats modelled as rationals). -/
inductive Val where
  | bool (b : Bool)
  | str (s : String)
  | num (q : Rat)
deriving DecidableEq, Repr

/-- Python truthiness of a `Val`, as used by `if grade:` in
`grade_documents.py`: `False`, `""` and `0` are falsy, all else truthy. -/
def Val.truthy : Val → Bool
  | .bool b => b
  | .str s => s ≠ ""
  | .num q => q ≠ 0

/-- A string-keyed Python dict, modelled as an association list in insertion
order. -/
abbrev Dict := List (String × Val)

/-- Python `d.get(k)`: the value at key `k`, if present. -/
def dictGet (m : Dict) (k : String) : Option Val :=
  (m.find? (fun p => p.1 == k)).map Prod.snd

/-- Python `d.get(k, default)`. -/
def dictGetD (m : Dict) (k : String) (default : Val) : Val :=
  (dictGet m k).getD default

/-- Python dict assignment `d[k] = v` — overwrite the entry at an existing
key in place (keys are unique in a Python dict), otherwise append a new
entry at the end (dict insertion order). -/
def dictSet (m : Dict) (k : String) (v : Val) : Dict :=
  match m with
  | [] => [(k, v)]
  | p :: m => if p.1 == k then (k, v) :: m else p :: dictSet m k v

/-- A LangChain `Document`: `page_content` plus open metadata
(`src/ai_agent/state.py`, `langchain.schema.Document`). -/
structure Document where
  page_content : String
  metadata : Dict
deriving DecidableEq, Repr

/-- Structured output of the retrieval grader chain
(`src/ai_agent/chains/retrieval_grader.py`, pydantic model
`GradeDocuments`): a required boolean `relevance` and a required numeric
`relevance_score`. -/
structure GradeDocuments where
  relevance : Bool
  relevance_score : Rat
deriving DecidableEq, Repr

/-- Result of `score.model_dump()` on a validated `GradeDocuments`: a dict
that always contains both fields. -/
def scoreDict (g : GradeDocuments) : Dict :=
  [("relevance", Val.bool g.relevance), ("relevance_score", Val.num g.relevance_score)]

/-- The retrieval grader oracle: given question, document content, and the
similarity-score input (the metadata value, or the string `"unknown"` when
absent), either return a validated `GradeDocuments` or fail (malformed
structured output / backend error raises inside `retrieval_grader.invoke`). -/
abbrev Grader := String → String → Val → Except Unit GradeDocuments

/-- The `similarity_score` input passed to the grader for a document:
`d.metadata.get("similarity_score", "unknown")`. -/
def simInput (d : Document) : Val :=
  dictGetD d.metadata "similarity_score" (Val.str "unknown")

/-- The document loop of `grade_documents`
(`src/ai_agent/nodes/grade_documents.py`, lines 45–72): grade each document
in order; a grader failure propagates; a relevant document gets
`relevance_score` written into its metadata and is kept; an irrelevant one
is dropped and sets the `web_search` flag. Returns
`(filtered_docs, web_search)`. -/
def gradeLoop (retrieval_grader : Grader) (question : String) :
    List Document → Except Unit (List Document × Bool)
  | [] => Except.ok ([], false)
  | d :: ds =>
    match retrieval_grader question d.page_content (simInput d) with
    | Except.error e => Except.error e
    | Except.ok score =>
      let dump := scoreDict score
      let grade := dictGetD dump "relevance" (Val.str "no")
      match gradeLoop retrieval_grader question ds with
      | Except.error e => Except.error e
      | Except.ok (filtered_docs, web_search) =>
        if grade.truthy then
          Except.ok
            ({ d with
                metadata := dictSet d.metadata "relevance_score"
                  (dictGetD dump "relevance_score" (Val.num 0)) } :: filtered_docs,
             web_search)
        else
          Except.ok (filtered_docs, true)

/-- The `grade_documents` node: returns the dict
`{"documents": filtered_docs, "question": question, "web_search": web_search}`
as a triple, or propagates a grader failure. -/
def grade_documents (retrieval_grader : Grader) (question : String)
    (documents : List Document) : Except Unit (List Document × String × Bool) :=
  match gradeLoop retrieval_grader question documents with
  | Except.error e => Except.error e
  | Except.ok (filtered_docs, web_search) =>
    Except.ok (filtered_docs, question, web_search)

/-- Wrap a total grader as an `Except`-valued one that never fails. -/
def okGrader (g : String → String → Val → GradeDocuments) : Grader :=
  fun question document similarity_score =>
    Except.ok (g question document similarity_score)

/-- Whether the (total) grader marks a document relevant for a question:
the `relevance` field of its structured response. -/
def accepts (g : String → String → Val → GradeDocuments) (question : String)
    (d : Document) : Bool :=
  (g question d.page_content (simInput d)).relevance

/-- The metadata enrichment applied to a kept document: write the grader's
`relevance_score` into its metadata. -/
def enrich (g : String → String → Val → GradeDocuments) (question : String)
    (d : Document) : Document :=
  { d with
      metadata := dictSet d.metadata "relevance_score"
        (Val.num (g question d.page_content (simInput d)).relevance_score) }

/-- The retriever handle supplied by the caller
(`src/ai_agent/nodes/retrieve.py`): `vectorstore` models the optional
`retriever.vectorstore.similarity_search_with_score` capability (query and
result count to scored documents); `search_kwargs_k` models
`getattr(retriever, "search_kwargs", {}).get("k")` (absent attribute or
absent key collapse to `none`); `invoke` models the plain
`retriever.invoke(question)` fallback. -/
structure Retriever where
  vectorstore : Option (String → Nat → List (Document × Rat))
  search_kwargs_k : Option Nat
  invoke : String → List Document

/-- Attach a similarity score to a retrieved document:
`doc.metadata["similarity_score"] = float(score)`. -/
def attachSim (d : Document) (score : Rat) : Document :=
  { d with metadata := dictSet d.metadata "similarity_score" (Val.num score) }

/-- The `retrieve` node (`src/ai_agent/nodes/retrieve.py`, lines 44–62):
with a `vectorstore`, run the scored similarity search with
`k = search_kwargs.get("k", 4)` and attach each score to the document's
metadata; otherwise fall back to `retriever.invoke(question)`. Returns
the dict `{"documents": documents, "question": question}` as a pair. -/
def retrieve (retriever : Retriever) (question : String) : List Document × String :=
  match retriever.vectorstore with
  | some similarity_search_with_score =>
    let k := retriever.search_kwargs_k.getD 4
    let docs_with_scores := similarity_search_with_score question k
    (docs_with_scores.map (fun p => attachSim p.1 p.2), question)
  | none => (retriever.invoke question, question)

/-- One entry of `chat_history`. `isDict` models the
`isinstance(entry, dict)` guard in `generate.py`; `role` and `content`
model `entry.get("role", "")` and `entry.get("content", "")` for dict
entries (unused otherwise). -/
structure ChatEntry where
  isDict : Bool
  role : String
  content : String
deriving DecidableEq, Repr

/-- Python `l[-6:]`: the last `n` elements of a list (the whole list when it
is shorter). -/
def lastN (n : Nat) (l : List α) : List α :=
  l.drop (l.length - n)

/-- The line appended to `history_items` for one chat entry, if any:
dict entries with truthy role and content render as `"User: …"` when the
role is `"user"` and `"Assistant: …"` when it is `"assistant"`; any other
entry contributes nothing (`src/ai_agent/nodes/generate.py`, lines 48–58). -/
def renderEntry (entry : ChatEntry) : Option String :=
  if entry.isDict then
    if entry.role ≠ "" ∧ entry.content ≠ "" then
      if entry.role = "user" then some ("User: " ++ entry.content)
      else if entry.role = "assistant" then some ("Assistant: " ++ entry.content)
      else none
    else none
  else none

/-- The rendered chat history of the `generate` node
(`src/ai_agent/nodes/generate.py`, lines 44–63): an empty history (also
covering an absent key, via `state.get("chat_history", [])`) renders as the
placeholder; otherwise the qualifying lines of the last 6 entries joined by
newlines, or the placeholder when none qualify. -/
def formattedHistory (chat_history : List ChatEntry) : String :=
  if chat_history ≠ [] then
    let history_items := (lastN 6 chat_history).filterMap renderEntry
    if history_items ≠ [] then String.intercalate "\n" history_items
    else "No previous conversation."
  else "No previous conversation."

/-- The `generate` node (`src/ai_agent/nodes/generate.py`, lines 41–71):
invoke the generation chain with the documents, the question and the
rendered history, and return the dict
`{"documents": documents, "question": question, "generation": generation}`
as a triple. The chain oracle takes (context, question, chat_history). -/
def generate (generation_chain : List Document → String → String → String)
    (question : String) (documents : List Document)
    (chat_history : List ChatEntry) : List Document × String × String :=
  (documents, question,
   generation_chain documents question (formattedHistory chat_history))

/-- One result of the Tavily web-search provider
(`src/ai_agent/nodes/web_search.py`): title, url, body content and the
provider's own relevance score. -/
structure TavilyResult where
  title : String
  url : String
  content : String
  score : Rat
deriving DecidableEq, Repr

/-- The Document built from one web-search result: content is the result
body, `source` is title and url separated by a newline, `relevance_score`
is the provider's score. -/
def mkWebDoc (r : TavilyResult) : Document :=
  { page_content := r.content,
    metadata := [("source", Val.str (r.title ++ "\n" ++ r.url)),
                 ("relevance_score", Val.num r.score)] }

/-- The result-processing loop of `web_search`: append each mapped result to
the existing documents, creating the list on the first result when the
state had no documents. -/
def webLoop : Option (List Document) → List TavilyResult → Option (List Document)
  | documents, [] => documents
  | documents, r :: rs =>
    match documents with
    | some ds => webLoop (some (ds ++ [mkWebDoc r])) rs
    | none => webLoop (some [mkWebDoc r]) rs

/-- The `web_search` node (`src/ai_agent/nodes/web_search.py`, lines
21–74): `documents` is the state's value when the key is present, else
`None` (both the absent key and an explicit `None` reach the loop as
`none` here); the Tavily results are mapped to Documents and appended.
Returns the dict `{"documents": documents, "question": question}` as a
pair. -/
def web_search (question : String) (documents : Option (List Document))
    (tavily_results : List TavilyResult) : Option (List Document) × String :=
  (webLoop documents tavily_results, question)

/-- The nodes of the LangGraph workflow (`src/ai_agent/graph.py` /
`ai_agent/consts.py`). `END` is LangGraph's virtual terminal and is not a
node that executes, so edge targets are `Option Node` with `none` standing
for `END`. -/
inductive Node where
  | RETRIEVE
  | GRADE_DOCUMENTS
  | GENERATE
  | WEBSEARCH
deriving DecidableEq, Repr

/-- The run state threaded through the graph (`src/ai_agent/state.py`,
`GraphState`), minus the retriever handle, which no node writes and which
the driver carries in its configuration. -/
structure RState where
  question : String
  generation : String
  web_search : Bool
  documents : List Document
  chat_history : List ChatEntry
deriving DecidableEq, Repr

/-- The post-grading router `decide_to_generate`
(`src/ai_agent/graph.py`, lines 29–52): `WEBSEARCH` when the state's
`web_search` flag is set, else `GENERATE`. -/
def decide_to_generate (state : RState) : Node :=
  if state.web_search then Node.WEBSEARCH else Node.GENERATE

/-- The post-generation router
(`src/ai_agent/graph.py`, lines 55–96): invoke the hallucination grader on
(documents, generation); if not grounded the decision is `"not supported"`;
otherwise invoke the answer grader on (question, generation) and decide
`"useful"` or `"not useful"`. The two graders are oracles returning the
`binary_score` booleans of their structured responses. -/
def grade_generation_grounded_in_documents_and_question
    (hallucination_grader : List Document → String → Bool)
    (answer_grader : String → String → Bool) (state : RState) : String :=
  let question := state.question
  let documents := state.documents
  let generation := state.generation
  if hallucination_grader documents generation then
    if answer_grader question generation then "useful" else "not useful"
  else "not supported"

/-- The driver configuration of one run: the caller-supplied start state
and retriever, plus the component oracles, each indexed by the superstep
count so that arbitrary sequences of grader outcomes are expressible. -/
structure Exec where
  start : RState
  retriever : Retriever
  docGrader : Nat → String → String → Val → GradeDocuments
  genChain : Nat → List Document → String → String → String
  tavily : Nat → String → List TavilyResult
  halluc : Nat → List Document → String → Bool
  ansg : Nat → String → String → Bool

/-- One superstep of the compiled workflow (`src/ai_agent/graph.py`, lines
99–139): execute the current node's state update, then follow its outgoing
edges. `RETRIEVE → GRADE_DOCUMENTS` and `WEBSEARCH → GENERATE` are the
unconditional `add_edge` targets; `GRADE_DOCUMENTS` routes through
`decide_to_generate`; `GENERATE` routes through the conditional mapping
`"not supported" → GENERATE`, `"useful" → END`, `"not useful" → WEBSEARCH`.
The additional unconditional `add_edge(GENERATE, END)` has target `END`
and therefore schedules no task, so the next task after `GENERATE` is the
conditional branch target alone. Returns the updated state and the next
node (`none` = the run reaches `END` / halts). A grader failure aborts the
run (no next task). -/
def stepNode (E : Exec) (t : Nat) : Node → RState → RState × Option Node
  | Node.RETRIEVE, s =>
    let out := retrieve E.retriever s.question
    ({ s with documents := out.1, question := out.2 }, some Node.GRADE_DOCUMENTS)
  | Node.GRADE_DOCUMENTS, s =>
    match grade_documents (okGrader (E.docGrader t)) s.question s.documents with
    | Except.ok out =>
      let s' := { s with documents := out.1, question := out.2.1, web_search := out.2.2 }
      (s', some (decide_to_generate s'))
    | Except.error _ => (s, none)
  | Node.GENERATE, s =>
    let out := generate (E.genChain t) s.question s.documents s.chat_history
    let s' := { s with documents := out.1, question := out.2.1, generation := out.2.2 }
    match grade_generation_grounded_in_documents_and_question
        (E.halluc t) (E.ansg t) s' with
    | "not supported" => (s', some Node.GENERATE)
    | "useful" => (s', none)
    | "not useful" => (s', some Node.WEBSEARCH)
    | _ => (s', none)
  | Node.WEBSEARCH, s =>
    let out := web_search s.question (some s.documents) (E.tavily t s.question)
    ({ s with documents := out.1.getD [], question := out.2 }, some Node.GENERATE)

/-- The run after `n` supersteps: the pending node and the current state,
or `none` once the run has halted. The entry point is `RETRIEVE`
(`workflow.set_entry_point(RETRIEVE)`). -/
def steps (E : Exec) : Nat → Option (Node × RState)
  | 0 => some (Node.RETRIEVE, E.start)
  | n + 1 =>
    match steps E n with
    | none => none
    | some (nd, s) =>
      match stepNode E n nd s with
      | (s', some nd') => some (nd', s')
      | (_, none) => none

/-- The state after the `generate` node has run on state `s` at superstep
`t`: only `generation` changes (the node returns `documents` and `question`
unchanged). -/
def postGen (E : Exec) (t : Nat) (s : RState) : RState :=
  { s with generation := (generate (E.genChain t) s.question s.documents s.chat_history).2.2 }

/-- The routing decision taken after the `generate` node at superstep `t`
from state `s`: the post-generation router evaluated on the updated state,
exactly as the conditional edge of `graph.py` does. -/
def verdict (E : Exec) (t : Nat) (s : RState) : String :=
  grade_generation_grounded_in_documents_and_question
    (E.halluc t) (E.ansg t) (postGen E t s)

/-- The Boolean predicate of spec §4.3 for a chat entry that survives
history rendering: a dict entry with non-empty content whose role is
`user` or `assistant`. -/
def qualifies (e : ChatEntry) : Bool :=
  e.isDict && !(e.content == "") && ((e.role == "user") || (e.role == "assistant"))

/-- The rendered line of a qualifying chat entry. -/
def renderLine (e : ChatEntry) : String :=
  (if e.role == "user" then "User: " else "Assistant: ") ++ e.content

/-- A concrete document graded relevant by `sampleGrader`. -/
def docGood : Document :=
  { page_content := "good", metadata := [("similarity_score", Val.num 2)] }

/-- A concrete document graded irrelevant by `sampleGrader`. -/
def docBad : Document := { page_content := "bad", metadata := [] }

/-- A concrete total grader: relevant iff the content is `"good"`. -/
def sampleGrader : String → String → Val → GradeDocuments :=
  fun _ content _ => { relevance := content == "good", relevance_score := 1 }

/-- A concrete grader whose call always fails (malformed structured
output). -/
def failGrader : Grader := fun _ _ _ => Except.error ()

/-- A concrete retriever with no scored-search capability and empty plain
retrieval. -/
def emptyRetriever : Retriever :=
  { vectorstore := none, search_kwargs_k := none, invoke := fun _ => [] }

/-- A concrete retriever exposing scored similarity search. -/
def scoredRetriever : Retriever :=
  { vectorstore := some (fun _ _ => [(docBad, 3)]),
    search_kwargs_k := some 2,
    invoke := fun _ => [] }

/-- A concrete caller-supplied start state. -/
def sampleStart : RState :=
  { question := "q", generation := "", web_search := false,
    documents := [], chat_history := [] }

/-- A concrete run in which both post-generation graders always pass. -/
def c1Exec : Exec :=
  { start := sampleStart
    retriever := emptyRetriever
    docGrader := fun _ _ _ _ => { relevance := true, relevance_score := 1 }
    genChain := fun _ _ _ _ => "answer"
    tavily := fun _ _ => []
    halluc := fun _ _ _ => true
    ansg := fun _ _ _ => true }

/-- A concrete run in which the hallucination grader reports not grounded
on every generation attempt. -/
def c2Exec : Exec :=
  { start := sampleStart
    retriever := emptyRetriever
    docGrader := fun _ _ _ _ => { relevance := true, relevance_score := 1 }
    genChain := fun _ _ _ _ => "answer"
    tavily := fun _ _ => []
    halluc := fun _ _ _ => false
    ansg := fun _ _ _ => true }

/-- The state `c2Exec` loops on forever from superstep 3 onwards. -/
def c2Fix : RState :=
  { question := "q", generation := "answer", web_search := false,
    documents := [], chat_history := [] }

/-- A concrete run whose graders always report grounded and useful. -/
def c2ExecU : Exec :=
  { start := sampleStart
    retriever := emptyRetriever
    docGrader := fun _ _ _ _ => { relevance := true, relevance_score := 1 }
    genChain := fun _ _ _ _ => "answer"
    tavily := fun _ _ => []
    halluc := fun _ _ _ => true
    ansg := fun _ _ _ => true }

/-- A concrete web-search provider result. -/
def sampleResult : TavilyResult :=
  { title := "T", url := "u", content := "C", score := 1 }

/-- A concrete post-grading state whose `web_search` flag is set. -/
def flaggedState : RState :=
  { question := "q", generation := "", web_search := true,
    documents := [], chat_history := [] }

end KS

namespace KS

theorem dictGet_dictSet_self (m : Dict) (k : String) (v : Val) :
    dictGet (dictSet m k v) k = some v := by
  induction m with
  | nil => simp [dictGet, dictSet]
  | cons p m ih =>
    by_cases hpk : p.1 == k
    · simp [dictGet, dictSet, List.find?_cons, hpk]
    · simpa [dictGet, dictSet, List.find?_cons, hpk] using ih

theorem dictGet_dictSet_ne (m : Dict) (k : String) (v : Val) (k' : String)
    (hne : k' ≠ k) :
    dictGet (dictSet m k v) k' = dictGet m k' := by
  have hkk : (k == k') = false := by
    simp only [beq_eq_false_iff_ne, ne_eq]
    exact fun h => hne h.symm
  induction m with
  | nil => simp [dictGet, dictSet, hkk]
  | cons p m ih =>
    by_cases hpk : p.1 == k
    · have hp : p.1 = k := by simpa [beq_iff_eq] using hpk
      simp [dictGet, dictSet, List.find?_cons, hpk, hkk, hp]
    · by_cases hp' : p.1 == k'
      · simp [dictGet, dictSet, List.find?_cons, hpk, hp']
      · simpa [dictGet, dictSet, List.find?_cons, hpk, hp'] using ih

theorem dictGetD_scoreDict_relevance (s : GradeDocuments) (v : Val) :
    dictGetD (scoreDict s) "relevance" v = Val.bool s.relevance := rfl

theorem dictGetD_scoreDict_score (s : GradeDocuments) (v : Val) :
    dictGetD (scoreDict s) "relevance_score" v = Val.num s.relevance_score := rfl

theorem gradeLoop_ok (g : String → String → Val → GradeDocuments) (q : String)
    (docs : List Document) :
    gradeLoop (okGrader g) q docs =
      Except.ok ((docs.filter (fun d => accepts g q d)).map (enrich g q),
                 docs.any (fun d => !accepts g q d)) := by
  induction docs with
  | nil => rfl
  | cons d ds ih =>
    simp only [gradeLoop, okGrader, ih, dictGetD_scoreDict_relevance,
      dictGetD_scoreDict_score]
    cases hacc : (g q d.page_content (simInput d)).relevance <;>
      simp [accepts, enrich, Val.truthy, hacc, List.filter_cons, List.any_cons]

theorem grade_documents_ok (g : String → String → Val → GradeDocuments)
    (q : String) (docs : List Document) :
    grade_documents (okGrader g) q docs =
      Except.ok ((docs.filter (fun d => accepts g q d)).map (enrich g q), q,
                 docs.any (fun d => !accepts g q d)) := by
  simp [grade_documents, gradeLoop_ok]

theorem gradeLoop_error (gr : Grader) (q : String) (docs : List Document)
    (h : ∃ d ∈ docs, gr q d.page_content (simInput d) = Except.error ()) :
    gradeLoop gr q docs = Except.error () := by
  induction docs with
  | nil => simp at h
  | cons d ds ih =>
    obtain ⟨d0, hd0, herr⟩ := h
    rcases List.mem_cons.mp hd0 with heq | hmem
    · subst heq
      simp [gradeLoop, herr]
    · cases hcall : gr q d.page_content (simInput d) with
      | error e =>
        cases e
        simp [gradeLoop, hcall]
      | ok score =>
        have hrec := ih ⟨d0, hmem, herr⟩
        simp [gradeLoop, hcall, hrec]

theorem simInput_enrich (g : String → String → Val → GradeDocuments)
    (q : String) (d : Document) :
    simInput (enrich g q d) = simInput d := by
  unfold simInput enrich dictGetD
  rw [dictGet_dictSet_ne _ _ _ _ (by decide)]

theorem accepts_enrich (g : String → String → Val → GradeDocuments)
    (q : String) (d : Document) :
    accepts g q (enrich g q d) = accepts g q d := by
  unfold accepts
  rw [simInput_enrich]
  rfl

theorem webLoop_some (D : List Document) (rs : List TavilyResult) :
    webLoop (some D) rs = some (D ++ rs.map mkWebDoc) := by
  induction rs generalizing D with
  | nil => simp [webLoop]
  | cons r rs ih =>
    simp [webLoop, ih, List.append_assoc]

theorem webLoop_none_cons (r : TavilyResult) (rs : List TavilyResult) :
    webLoop none (r :: rs) = some (mkWebDoc r :: rs.map mkWebDoc) := by
  simp [webLoop, webLoop_some]

theorem filterMap_renderEntry (l : List ChatEntry) :
    l.filterMap renderEntry = (l.filter qualifies).map renderLine := by
  induction l with
  | nil => rfl
  | cons e l ih =>
    rw [List.filterMap_cons, List.filter_cons]
    by_cases hd : e.isDict
    · by_cases hc : e.content = ""
      · have h1 : renderEntry e = none := by simp [renderEntry, hd, hc]
        have h2 : qualifies e = false := by simp [qualifies, hd, hc]
        simp [h1, h2, ih]
      · by_cases hu : e.role = "user"
        · have h1 : renderEntry e = some ("User: " ++ e.content) := by
            simp [renderEntry, hd, hc, hu]
          have h2 : qualifies e = true := by simp [qualifies, hd, hc, hu]
          simp [h1, h2, ih, renderLine, hu]
        · by_cases ha : e.role = "assistant"
          · have h1 : renderEntry e = some ("Assistant: " ++ e.content) := by
              simp [renderEntry, hd, hc, hu, ha]
            have h2 : qualifies e = true := by simp [qualifies, hd, hc, hu, ha]
            simp [h1, h2, ih, renderLine, hu, ha]
          · have h1 : renderEntry e = none := by
              by_cases hr : e.role = "" <;> simp [renderEntry, hd, hc, hu, ha, hr]
            have h2 : qualifies e = false := by simp [qualifies, hu, ha]
            simp [h1, h2, ih]
    · have h1 : renderEntry e = none := by simp [renderEntry, hd]
      have h2 : qualifies e = false := by simp [qualifies, hd]
      simp [h1, h2, ih]

theorem steps_succ (E : Exec) (n : Nat) (nd : Node) (s : RState)
    (h : steps E n = some (nd, s)) :
    steps E (n + 1) =
      (match stepNode E n nd s with
       | (s', some nd') => some (nd', s')
       | (_, none) => none) := by
  simp [steps, h]

theorem verdict_eq (E : Exec) (t : Nat) (s : RState) :
    verdict E t s =
      (if E.halluc t (postGen E t s).documents (postGen E t s).generation then
        (if E.ansg t (postGen E t s).question (postGen E t s).generation then
          "useful"
        else "not useful")
      else "not supported") := rfl

theorem verdict_trichotomy (E : Exec) (t : Nat) (s : RState) :
    verdict E t s = "useful" ∨ verdict E t s = "not useful" ∨
      verdict E t s = "not supported" := by
  rw [verdict_eq]
  split_ifs <;> simp

theorem stepNode_generate (E : Exec) (t : Nat) (s : RState) :
    stepNode E t Node.GENERATE s =
      (postGen E t s,
       if verdict E t s = "not supported" then some Node.GENERATE
       else if verdict E t s = "useful" then none
       else some Node.WEBSEARCH) := by
  show (match verdict E t s with
        | "not supported" => (postGen E t s, some Node.GENERATE)
        | "useful" => (postGen E t s, none)
        | "not useful" => (postGen E t s, some Node.WEBSEARCH)
        | _ => (postGen E t s, none)) = _
  rcases verdict_trichotomy E t s with hv | hv | hv <;> rw [hv] <;> rfl

theorem steps_generate_succ (E : Exec) (n : Nat) (s : RState)
    (h : steps E n = some (Node.GENERATE, s)) :
    steps E (n + 1) =
      (if verdict E n s = "not supported" then some (Node.GENERATE, postGen E n s)
       else if verdict E n s = "useful" then none
       else some (Node.WEBSEARCH, postGen E n s)) := by
  rw [steps_succ E n _ _ h, stepNode_generate]
  rcases verdict_trichotomy E n s with hv | hv | hv <;> rw [hv] <;> rfl

theorem c2Exec_loop (k : Nat) :
    steps c2Exec (3 + k) = some (Node.GENERATE, c2Fix) := by
  induction k with
  | zero => rfl
  | succ k ih =>
    rw [Nat.add_succ, steps_succ _ _ _ _ ih]
    rfl

/-- C1: after a generate step, the post-generation router returns exactly one
of the three decisions — `"not supported"` iff the hallucination grader
reports not grounded, `"not useful"` iff grounded but the answer grader
reports the answer does not address the question, `"useful"` iff grounded
and addressing — as a pure function of the two grader booleans, and the
graph follows it: on `"not supported"` the next executed step is GENERATE
again with documents and question unchanged (no re-retrieval or
re-grading), on `"not useful"` the next step is WEBSEARCH, on `"useful"`
the run halts at END; moreover a run halts only from a GENERATE superstep
whose decision is `"useful"`. -/
theorem c1_post_generation_routing :
    (∀ (E : Exec) (n : Nat) (s : RState),
      steps E n = some (Node.GENERATE, s) →
      (verdict E n s = "useful" ∨ verdict E n s = "not useful" ∨
        verdict E n s = "not supported")
      ∧ (verdict E n s = "not supported" ↔
          E.halluc n (postGen E n s).documents (postGen E n s).generation = false)
      ∧ (verdict E n s = "not useful" ↔
          (E.halluc n (postGen E n s).documents (postGen E n s).generation = true
           ∧ E.ansg n (postGen E n s).question (postGen E n s).generation = false))
      ∧ (verdict E n s = "useful" ↔
          (E.halluc n (postGen E n s).documents (postGen E n s).generation = true
           ∧ E.ansg n (postGen E n s).question (postGen E n s).generation = true))
      ∧ (verdict E n s = "not supported" →
          steps E (n + 1) = some (Node.GENERATE, postGen E n s)
          ∧ (postGen E n s).documents = s.documents
          ∧ (postGen E n s).question = s.question)
      ∧ (verdict E n s = "not useful" →
          steps E (n + 1) = some (Node.WEBSEARCH, postGen E n s))
      ∧ (verdict E n s = "useful" → steps E (n + 1) = none))
    ∧ (∀ (E : Exec) (n : Nat) (nd : Node) (s : RState),
        steps E n = some (nd, s) → steps E (n + 1) = none →
        nd = Node.GENERATE ∧ verdict E n s = "useful") := by
  constructor
  · intro E n s h
    refine ⟨verdict_trichotomy E n s, ?_, ?_, ?_, ?_, ?_, ?_⟩
    · rw [verdict_eq]
      cases hh : E.halluc n (postGen E n s).documents (postGen E n s).generation <;>
        cases ha : E.ansg n (postGen E n s).question (postGen E n s).generation <;>
        simp
    · rw [verdict_eq]
      cases hh : E.halluc n (postGen E n s).documents (postGen E n s).generation <;>
        cases ha : E.ansg n (postGen E n s).question (postGen E n s).generation <;>
        simp
    · rw [verdict_eq]
      cases hh : E.halluc n (postGen E n s).documents (postGen E n s).generation <;>
        cases ha : E.ansg n (postGen E n s).question (postGen E n s).generation <;>
        simp
    · intro hv
      refine ⟨?_, rfl, rfl⟩
      rw [steps_generate_succ E n s h, hv]
      rfl
    · intro hv
      rw [steps_generate_succ E n s h, hv]
      rfl
    · intro hv
      rw [steps_generate_succ E n s h, hv]
      rfl
  · intro E n nd s h hnone
    cases nd with
    | RETRIEVE =>
      rw [steps_succ E n _ _ h] at hnone
      simp [stepNode] at hnone
    | GRADE_DOCUMENTS =>
      rw [steps_succ E n _ _ h] at hnone
      simp [stepNode, grade_documents_ok] at hnone
    | WEBSEARCH =>
      rw [steps_succ E n _ _ h] at hnone
      simp [stepNode] at hnone
    | GENERATE =>
      refine ⟨rfl, ?_⟩
      rw [steps_generate_succ E n s h] at hnone
      rcases verdict_trichotomy E n s with hv | hv | hv
      · exact hv
      · rw [hv] at hnone
        simp at hnone
      · rw [hv] at hnone
        simp at hnone

/-- Witness for C1: a concrete run whose graders report grounded and
useful at the third superstep; the decision there is `"useful"` and the
run halts. -/
theorem c1_witness :
    verdict c1Exec 2 sampleStart = "useful" ∧ steps c1Exec 3 = none := by
  have h2 : steps c1Exec 2 = some (Node.GENERATE, sampleStart) := rfl
  have h := c1_post_generation_routing.1 c1Exec 2 sampleStart h2
  have hv : verdict c1Exec 2 sampleStart = "useful" :=
    (h.2.2.2.1).mpr ⟨rfl, rfl⟩
  exact ⟨hv, h.2.2.2.2.2.2 hv⟩

/-- C2 counterexample: the graph has no retry bound — in the concrete run
`c2Exec`, whose hallucination grader reports not grounded on every
generation attempt, no number of supersteps ever reaches END or any other
halt: the run loops on GENERATE forever. -/
theorem c2_counterexample : ¬ ∃ n, steps c2Exec n = none := by
  rintro ⟨n, hn⟩
  rcases n with _ | _ | _ | m
  · exact absurd hn (by decide)
  · exact absurd hn (by decide)
  · exact absurd hn (by decide)
  · rw [show m + 1 + 1 + 1 = 3 + m by omega] at hn
    rw [c2Exec_loop m] at hn
    exact Option.noConfusion hn

/-- C2 amended: a run halts exactly through a grounded-and-useful
generation attempt — from a GENERATE superstep whose graders report
grounded and addressing, the run reaches END in one step, while a
not-grounded report re-executes GENERATE (same documents) with no retry
budget of any kind. -/
theorem c2_amended_only_useful_terminates :
    (∀ (E : Exec) (n : Nat) (s : RState),
      steps E n = some (Node.GENERATE, s) →
      (∀ ds gen, E.halluc n ds gen = true) →
      (∀ q gen, E.ansg n q gen = true) →
      steps E (n + 1) = none)
    ∧ (∀ (E : Exec) (n : Nat) (s : RState),
      steps E n = some (Node.GENERATE, s) →
      (∀ ds gen, E.halluc n ds gen = false) →
      steps E (n + 1) = some (Node.GENERATE, postGen E n s)
      ∧ (postGen E n s).documents = s.documents) := by
  constructor
  · intro E n s h hh ha
    have hv : verdict E n s = "useful" := by
      rw [verdict_eq, hh, ha]
      rfl
    rw [steps_generate_succ E n s h, hv]
    rfl
  · intro E n s h hh
    have hv : verdict E n s = "not supported" := by
      rw [verdict_eq, hh]
      rfl
    refine ⟨?_, rfl⟩
    rw [steps_generate_succ E n s h, hv]
    rfl

/-- Witness for the amended C2: the concrete run `c2ExecU`, whose graders
always pass, halts right after its first generation attempt. -/
theorem c2_amended_witness : steps c2ExecU 3 = none :=
  c2_amended_only_useful_terminates.1 c2ExecU 2 sampleStart rfl
    (fun _ _ => rfl) (fun _ _ => rfl)

/-- C3: the grading step keeps exactly the documents the grader marks
relevant, in input order (a filter followed by per-document metadata
enrichment), each kept document carries the grader's `relevance_score` in
its metadata, every output document independently grades as relevant, and
a document the grader marked irrelevant appears nowhere in the output. -/
theorem c3_grading_filters (g : String → String → Val → GradeDocuments)
    (q : String) (docs : List Document) :
    grade_documents (okGrader g) q docs =
      Except.ok ((docs.filter (fun d => accepts g q d)).map (enrich g q), q,
                 docs.any (fun d => !accepts g q d))
    ∧ (∀ d ∈ docs, accepts g q d = true →
        dictGet (enrich g q d).metadata "relevance_score" =
          some (Val.num (g q d.page_content (simInput d)).relevance_score))
    ∧ (∀ out, grade_documents (okGrader g) q docs = Except.ok out →
        (∀ d' ∈ out.1, accepts g q d' = true)
        ∧ (∀ d ∈ docs, accepts g q d = false → d ∉ out.1)) := by
  refine ⟨grade_documents_ok g q docs, ?_, ?_⟩
  · intro d _ _
    exact dictGet_dictSet_self d.metadata "relevance_score" _
  · intro out hout
    rw [grade_documents_ok] at hout
    injection hout with hout
    subst hout
    constructor
    · intro d' hd'
      obtain ⟨d0, hd0, heq⟩ := List.mem_map.mp hd'
      have h0 := (List.mem_filter.mp hd0).2
      rw [← heq, accepts_enrich]
      exact h0
    · intro d hd hacc hmem
      obtain ⟨d0, hd0, heq⟩ := List.mem_map.mp hmem
      have h0 := (List.mem_filter.mp hd0).2
      have hacc' : accepts g q d = true := by
        rw [← heq, accepts_enrich]
        exact h0
      rw [hacc] at hacc'
      exact Bool.noConfusion hacc'

/-- Witness for C3: concrete grading of a relevant and an irrelevant
document — only the relevant one survives, enriched with the grader's
score, and the irrelevant one is gone. -/
theorem c3_witness :
    grade_documents (okGrader sampleGrader) "q" [docGood, docBad] =
      Except.ok ([enrich sampleGrader "q" docGood], "q", true)
    ∧ dictGet (enrich sampleGrader "q" docGood).metadata "relevance_score" =
        some (Val.num
          (sampleGrader "q" docGood.page_content (simInput docGood)).relevance_score)
    ∧ docBad ∉ [enrich sampleGrader "q" docGood] := by
  have h := c3_grading_filters sampleGrader "q" [docGood, docBad]
  refine ⟨h.1.trans (congrArg Except.ok (by decide)), h.2.1 docGood (by decide) (by decide), ?_⟩
  exact (h.2.2 ([enrich sampleGrader "q" docGood], "q", true)
    (h.1.trans (congrArg Except.ok (by decide)))).2 docBad (by decide) (by decide)

/-- C4: the grading step's `web_search` flag is true iff at least one
examined document was graded irrelevant, and the post-grading router
chooses WEBSEARCH exactly when the flag is true and GENERATE otherwise. -/
theorem c4_web_search_flag (g : String → String → Val → GradeDocuments)
    (q : String) (docs : List Document)
    (out : List Document × String × Bool)
    (h : grade_documents (okGrader g) q docs = Except.ok out) :
    (out.2.2 = true ↔ ∃ d ∈ docs, accepts g q d = false)
    ∧ (∀ s : RState,
        (decide_to_generate s = Node.WEBSEARCH ↔ s.web_search = true)
        ∧ (decide_to_generate s = Node.GENERATE ↔ s.web_search = false)) := by
  rw [grade_documents_ok] at h
  injection h with h
  subst h
  constructor
  · simp [List.any_eq_true]
  · intro s
    cases hs : s.web_search <;> simp [decide_to_generate, hs]

/-- Witness for C4: concrete grading in which one document is rejected —
the flag is true and a state carrying it routes to WEBSEARCH. -/
theorem c4_witness :
    ((true : Bool) = true ↔ ∃ d ∈ [docGood, docBad], accepts sampleGrader "q" d = false)
    ∧ decide_to_generate flaggedState = Node.WEBSEARCH := by
  have h := c4_web_search_flag sampleGrader "q" [docGood, docBad]
    ([enrich sampleGrader "q" docGood], "q", true)
    ((grade_documents_ok sampleGrader "q" [docGood, docBad]).trans
      (congrArg Except.ok (by decide)))
  exact ⟨h.1, (h.2 _).1.mpr rfl⟩

/-- C5: the web-search step appends the mapped provider results to the
prior documents — the output starts with exactly the prior sequence
unchanged, followed by one Document per result in provider order, each
with content equal to the result body, `source` equal to title, newline,
url, and `relevance_score` equal to the provider's score; nothing is
removed, and an absent prior sequence behaves as empty once any result
arrives. -/
theorem c5_web_search_appends (q : String) (D : List Document)
    (results : List TavilyResult) (hlen : results.length ≤ 3) :
    web_search q (some D) results = (some (D ++ results.map mkWebDoc), q)
    ∧ (results ≠ [] →
        web_search q none results = (some (results.map mkWebDoc), q))
    ∧ ∀ r ∈ results,
        (mkWebDoc r).page_content = r.content
        ∧ dictGet (mkWebDoc r).metadata "source" =
            some (Val.str (r.title ++ "\n" ++ r.url))
        ∧ dictGet (mkWebDoc r).metadata "relevance_score" =
            some (Val.num r.score) := by
  refine ⟨?_, ?_, ?_⟩
  · rw [web_search, webLoop_some]
  · intro hne
    cases results with
    | nil => exact absurd rfl hne
    | cons r rs =>
      rw [web_search, webLoop_none_cons]
      rfl
  · intro r _
    exact ⟨rfl, rfl, rfl⟩

/-- Witness for C5: a concrete prior document plus one provider result. -/
theorem c5_witness :
    web_search "q" (some [docGood]) [sampleResult] =
      (some ([docGood] ++ [sampleResult].map mkWebDoc), "q") :=
  (c5_web_search_appends "q" [docGood] [sampleResult] (by decide)).1

/-- C6: a failing grading call (malformed structured output raises inside
the chain) propagates — `grade_documents` returns the error and never a
result — and on successful calls every kept document's verdict and score
are exactly the grader's `relevance` and `relevance_score` fields: no
default is ever substituted, so a failed call is never treated as
relevant. -/
theorem c6_malformed_grading_fails (gr : Grader)
    (g : String → String → Val → GradeDocuments) (q : String)
    (docs : List Document) :
    ((∃ d ∈ docs, gr q d.page_content (simInput d) = Except.error ()) →
      grade_documents gr q docs = Except.error ())
    ∧ (∀ out, grade_documents (okGrader g) q docs = Except.ok out →
        ∀ d' ∈ out.1, ∃ d ∈ docs, accepts g q d = true ∧ d' = enrich g q d ∧
          dictGet d'.metadata "relevance_score" =
            some (Val.num (g q d.page_content (simInput d)).relevance_score)) := by
  constructor
  · intro h
    rw [grade_documents, gradeLoop_error gr q docs h]
  · intro out hout d' hd'
    rw [grade_documents_ok] at hout
    injection hout with hout
    subst hout
    obtain ⟨d0, hd0, heq⟩ := List.mem_map.mp hd'
    have h0 := List.mem_filter.mp hd0
    refine ⟨d0, h0.1, h0.2, heq.symm, ?_⟩
    rw [← heq]
    exact dictGet_dictSet_self d0.metadata "relevance_score" _

/-- Witness for C6: a grader whose single call fails makes the grading
step fail rather than produce a result. -/
theorem c6_witness : grade_documents failGrader "q" [docGood] = Except.error () :=
  (c6_malformed_grading_fails failGrader sampleGrader "q" [docGood]).1
    ⟨docGood, by decide, rfl⟩

/-- C7: the rendered history is built from at most the last 6 chat
entries; exactly the dict entries with non-empty content and role `user`
or `assistant` survive, rendered in original order as "User: …" /
"Assistant: …" lines; when none qualifies (including an empty or absent
history) the literal placeholder is used. -/
theorem c7_history_bounding (chat_history : List ChatEntry) :
    formattedHistory chat_history =
      (if ((lastN 6 chat_history).filter qualifies) = [] then
        "No previous conversation."
      else
        String.intercalate "\n"
          (((lastN 6 chat_history).filter qualifies).map renderLine)) := by
  unfold formattedHistory
  by_cases hch : chat_history = []
  · subst hch
    simp [lastN]
  · rw [if_pos hch, filterMap_renderEntry]
    by_cases hk : (lastN 6 chat_history).filter qualifies = []
    · simp [hk]
    · simp [hk]

/-- C8: with a scored-search capability the retrieval step maps the scored
results with the caller's `k` (default 4) and writes each score into the
document's `similarity_score` metadata; without it the step returns the
plain retrieval result untouched (so no `similarity_score` is added); in
both cases empty results yield an empty document sequence instead of a
failure. -/
theorem c8_retrieve_scored_or_fallback (r : Retriever) (q : String) :
    (∀ f, r.vectorstore = some f →
      (retrieve r q).1 =
        (f q (r.search_kwargs_k.getD 4)).map (fun p => attachSim p.1 p.2)
      ∧ (∀ p ∈ f q (r.search_kwargs_k.getD 4),
          dictGet (attachSim p.1 p.2).metadata "similarity_score" =
            some (Val.num p.2)
          ∧ (attachSim p.1 p.2).page_content = p.1.page_content)
      ∧ (f q (r.search_kwargs_k.getD 4) = [] → retrieve r q = ([], q)))
    ∧ (r.vectorstore = none →
      retrieve r q = (r.invoke q, q)
      ∧ ((∀ d ∈ r.invoke q, dictGet d.metadata "similarity_score" = none) →
          ∀ d ∈ (retrieve r q).1, dictGet d.metadata "similarity_score" = none)
      ∧ (r.invoke q = [] → retrieve r q = ([], q))) := by
  constructor
  · intro f hf
    refine ⟨by simp [retrieve, hf], ?_, ?_⟩
    · intro p _
      exact ⟨dictGet_dictSet_self _ _ _, rfl⟩
    · intro hempty
      simp [retrieve, hf, hempty]
  · intro hf
    refine ⟨by simp [retrieve, hf], ?_, ?_⟩
    · intro hno d hd
      have hr : (retrieve r q).1 = r.invoke q := by simp [retrieve, hf]
      rw [hr] at hd
      exact hno d hd
    · intro hempty
      simp [retrieve, hf, hempty]

/-- Witness for C8: a concrete retriever with a scored search returning one
document with score 3. -/
theorem c8_witness :
    (retrieve scoredRetriever "q").1 = [attachSim docBad 3]
    ∧ dictGet (attachSim docBad 3).metadata "similarity_score" =
        some (Val.num 3) := by
  have h := (c8_retrieve_scored_or_fallback scoredRetriever "q").1
    (fun _ _ => [(docBad, 3)]) rfl
  exact ⟨h.1.trans (by decide), (h.2.1 (docBad, 3) (by decide)).1⟩

/-- C9: every node returns the question unchanged, and the generate node
additionally returns the documents unchanged (only `generation` is new). -/
theorem c9_nodes_preserve_question :
    (∀ (r : Retriever) (q : String), (retrieve r q).2 = q)
    ∧ (∀ (gr : Grader) (q : String) (docs : List Document)
        (out : List Document × String × Bool),
        grade_documents gr q docs = Except.ok out → out.2.1 = q)
    ∧ (∀ (gc : List Document → String → String → String) (q : String)
        (docs : List Document) (ch : List ChatEntry),
        (generate gc q docs ch).2.1 = q ∧ (generate gc q docs ch).1 = docs)
    ∧ (∀ (q : String) (docs : Option (List Document))
        (res : List TavilyResult),
        (web_search q docs res).2 = q) := by
  refine ⟨?_, ?_, ?_, ?_⟩
  · intro r q
    cases hv : r.vectorstore <;> simp [retrieve, hv]
  · intro gr q docs out h
    rw [grade_documents] at h
    cases hl : gradeLoop gr q docs with
    | error e =>
      rw [hl] at h
      exact Except.noConfusion h
    | ok p =>
      obtain ⟨p1, p2⟩ := p
      rw [hl] at h
      injection h with h
      rw [← h]
  · intro gc q docs ch
    exact ⟨rfl, rfl⟩
  · intro q docs res
    rfl

/-- Witness for C9: concrete instances of the question-preservation facts,
including the grading step on a successful run. -/
theorem c9_witness :
    (retrieve emptyRetriever "q").2 = "q"
    ∧ (([enrich sampleGrader "q" docGood], "q", false) :
        List Document × String × Bool).2.1 = "q" := by
  refine ⟨c9_nodes_preserve_question.1 emptyRetriever "q", ?_⟩
  exact c9_nodes_preserve_question.2.1 (okGrader sampleGrader) "q" [docGood] _
    ((grade_documents_ok sampleGrader "q" [docGood]).trans
      (congrArg Except.ok (by decide)))

/-- C10: with no prior documents (absent key or `None`) and zero provider
results, the web-search step returns `None` for `documents`, not an empty
sequence. -/
theorem c10_websearch_none_stays_none (q : String) :
    web_search q none [] = (none, q) := rfl

end KS
